import Mathlib

/-
Verification of the domiot-io/drivers simulated device modules.

The definitions below are a shallow embedding of the C sources:
  src/linux/iohubx24-sim/iohubx24-sim.c   (I/O hub: 24 channels, read+write)
  src/linux/ohubx24-sim/ohubx24-sim.c     (output hub: same write filtering)
  src/linux/ihubx24-sim/ihubx24-sim.c     (input hub: timer-driven random inputs)
  src/linux/phidgetvintx6/phidgetvintx6.c (input hub variant; same reader flag logic)
  src/linux/video-sim/video-sim.c         (video playback state machine)

Machine integers: jiffies and all durations are modelled as Nat milliseconds
(jiffies_to_msecs / msecs_to_jiffies are identities in this model); the C code
only ever subtracts a play-start timestamp from a later timestamp, and
unsigned C subtraction agrees with Nat subtraction there.  Timers are
modelled as `Option Nat` (the absolute expiry instant when pending, `none`
when not pending); a timer callback first marks its own timer as no longer
pending (a fired kernel timer is not pending) and re-arms it via the same
field, mirroring mod_timer / del_timer.  Readers are modelled by their
per-reader notification flag (`data_available` / `state_changed`); list_add
prepends, so a freshly opened reader is the head of the list.
-/

namespace HubSim

/-- NUM_CHANNELS / NUM_INPUTS / OUTPUT_LENGTH in the three hub modules. -/
def NUM_CHANNELS : Nat := 24

/-- The accepted channel characters: the loop bodies of iohubx24-sim.c
device_write (lines 204-211) and ohubx24-sim.c device_write (lines 104-112)
accept only the two boolean digit characters. -/
def isBoolDigit (c : Char) : Bool := c == '0' || c == '1'

/-- The filtering loop of device_write: walk the user input while fewer than
`cap` valid digits have been accepted; a boolean digit is stored at the next
channel position, newline and carriage return are skipped, and every other
byte is dropped (the newline branch and the implicit default both accept
nothing, so only the digit test matters for the produced sequence). -/
def acceptDigits : List Char → Nat → List Char
  | _, 0 => []
  | [], _ + 1 => []
  | c :: rest, n + 1 =>
    if isBoolDigit c then c :: acceptDigits rest n
    else acceptDigits rest (n + 1)

/-- The channel buffer produced by one write: device_write first fills the
buffer with the off character (memset to the zero digit) and then stores the
accepted digits at positions 0, 1, 2, ...; the result is the accepted
digits followed by off padding up to NUM_CHANNELS. -/
def channelUpdate (input : List Char) : List Char :=
  let accepted := acceptDigits input NUM_CHANNELS
  accepted ++ List.replicate (NUM_CHANNELS - accepted.length) '0'

/-- Change detection of iohubx24-sim.c device_write (lines 214-219) and
ihubx24-sim.c update_input_states (lines 86-88): position-by-position
comparison of the new states against the previous states. -/
def changedFlag (curr prev : List Char) : Bool :=
  (curr.zip prev).any fun p => p.1 != p.2

/-- The per-device channel state: current states plus the shadow copy of the
previous states (channel_states / prev_channel_states). -/
structure HubState where
  channels : List Char
  prevChannels : List Char
deriving DecidableEq, Repr

/-- iohubx24-sim.c device_write (lines 195-231): save the previous states,
rebuild the channel buffer from the accepted digits (full replace), and
report whether any position changed; the caller wakes every registered
reader exactly when the returned flag is true. -/
def device_write (s : HubState) (input : List Char) : HubState × Bool :=
  let prev := s.channels
  let curr := channelUpdate input
  (⟨curr, prev⟩, changedFlag curr prev)

/-- ihubx24-sim.c update_input_states (lines 69-112): the timer callback
saves the previous states, replaces every input with a fresh random bit
(modelled by the `rnd` parameter), and reports whether any position changed;
readers are flagged and woken exactly when the flag is true.  Returns
((new states, previous states), changed). -/
def update_input_states (curr : List Char) (rnd : List Bool) :
    (List Char × List Char) × Bool :=
  let prev := curr
  let newStates := rnd.map fun b => if b then '1' else '0'
  ((newStates, prev), changedFlag newStates prev)

/-- The reader notification flag assigned at open by ihubx24-sim.c dev_open
(line 241), iohubx24-sim.c device_open (line 96) and phidgetvintx6.c
dev_open (line 328): state_changed = 1 so the first read succeeds. -/
def open_reader_flag : Bool := true

/-- Outcome of one read call on a hub device. -/
inductive ReadResult where
  | data (bytes : List Char)
  | eagain
  | blocked
deriving DecidableEq, Repr

/-- ihubx24-sim.c dev_read (lines 269-303) and iohubx24-sim.c device_read
(lines 124-163): when the reader's flag is clear, a non-blocking read
returns EAGAIN and a blocking read suspends on the wait queue; otherwise the
flag is cleared and the NUM_CHANNELS states plus a trailing newline are
returned.  Result is (outcome, reader flag after the call). -/
def device_read (channels : List Char) (flag : Bool) (nonblock : Bool) :
    ReadResult × Bool :=
  if flag = false then
    if nonblock then (.eagain, flag) else (.blocked, flag)
  else
    (.data (channels ++ ['\n']), false)

end HubSim

namespace VideoSim

/-- PLAY_DURATION_SECONDS * 1000 in video-sim.c. -/
def PLAY_DURATION_MS : Nat := 20 * 1000

/-- VIDEO_MAX_CHARS in video-sim.c. -/
def VIDEO_MAX_CHARS : Nat := 1024

/-- MAX_PATH_LENGTH in video-sim.c. -/
def MAX_PATH_LENGTH : Nat := 1000

/-- enum video_state of video-sim.c. -/
inductive VideoState where
  | stopped
  | playing
  | paused
deriving DecidableEq, Repr

/-- Outcome of one read call on a video device (device_read, lines
490-558); the formatted strings are represented by their numeric content
(seconds and tenths of the current position).  The buffer-too-small EINVAL
path is not modelled (reads are taken with a sufficient buffer). -/
inductive VideoReadResult where
  | endMsg
  | timeMsg (seconds : Nat) (tenths : Nat)
  | eagain
  | blocked
deriving DecidableEq, Repr

/-- struct video_device of video-sim.c, restricted to the playback state:
the echo buffer current_text (guarded by its own text_mutex and never read
by the state machine) is not modelled.  `readers` holds the data_available
flag of every registered reader, newest first (list_add prepends). -/
structure VideoDevice where
  state : VideoState
  videoSrc : List Char
  srcLoaded : Bool
  pauseTime : Nat
  playStartTime : Nat
  remainingMs : Nat
  positionMs : Nat
  videoEnded : Bool
  loopEnabled : Bool
  playTimer : Option Nat
  tickTimer : Option Nat
  readers : List Bool
deriving DecidableEq, Repr

/-- Device initialization in video_init (lines 644-652). -/
def initDevice : VideoDevice :=
  { state := .stopped
    videoSrc := []
    srcLoaded := false
    pauseTime := 0
    playStartTime := 0
    remainingMs := PLAY_DURATION_MS
    positionMs := 0
    videoEnded := false
    loopEnabled := false
    playTimer := none
    tickTimer := none
    readers := [] }

/-- read_timer_callback (lines 101-154), the end-of-play timer handler: when
playing with loop enabled, reset the position to 0 and the remaining time to
the full duration, record the new play start, re-arm both timers and flag
and wake every registered reader; when playing with loop disabled, stop,
reset the remaining time for the next play, set the position to the end
marker, set video_ended, cancel the tick timer and flag and wake every
registered reader.  The fired play timer itself is no longer pending on
entry. -/
def read_timer_callback (now : Nat) (d0 : VideoDevice) : VideoDevice :=
  let d := { d0 with playTimer := none }
  if d.state = .playing then
    if d.loopEnabled then
      { d with positionMs := 0
               remainingMs := PLAY_DURATION_MS
               playStartTime := now
               playTimer := some (now + PLAY_DURATION_MS)
               tickTimer := some (now + 100)
               readers := d.readers.map fun _ => true }
    else
      { d with state := .stopped
               remainingMs := PLAY_DURATION_MS
               positionMs := PLAY_DURATION_MS
               videoEnded := true
               tickTimer := none
               readers := d.readers.map fun _ => true }
  else d

/-- time_update_callback (lines 156-187), the 100 ms position tick: when
playing, flag and wake every registered reader; then, if the position has
not reached the duration, advance it by 100 ms capped at the duration and
re-arm the tick timer for 100 ms from now.  The fired tick timer itself is
no longer pending on entry. -/
def time_update_callback (now : Nat) (d0 : VideoDevice) : VideoDevice :=
  let d := { d0 with tickTimer := none }
  if d.state = .playing then
    let d1 := { d with readers := d.readers.map fun _ => true }
    if d1.positionMs < PLAY_DURATION_MS then
      let p := d1.positionMs + 100
      { d1 with positionMs := if PLAY_DURATION_MS < p then PLAY_DURATION_MS else p
                tickTimer := some (now + 100) }
    else d1
  else d

/-- device_open for a reader (lines 200-222): clear video_ended, reset the
position to 0 when stopped, set the new reader's data_available flag to 0
(no data available initially) and prepend it to the readers list. -/
def device_open_reader (d : VideoDevice) : VideoDevice :=
  { d with videoEnded := false
           positionMs := if d.state = .stopped then 0 else d.positionMs
           readers := false :: d.readers }

/-- device_release for a reader (lines 581-592): remove the reader from the
registry. -/
def device_release_reader (d : VideoDevice) (i : Nat) : VideoDevice :=
  { d with readers := d.readers.eraseIdx i }

/-- device_read (lines 490-558) by the reader at index `i`: with the flag
clear, non-blocking reads return EAGAIN and blocking reads suspend; with
the flag set, clear it, return the end marker when the video has ended with
loop disabled, and otherwise return the current position formatted as
seconds and tenths.  Result is (outcome, device after the call). -/
def device_read (d : VideoDevice) (i : Nat) (nonblock : Bool) :
    VideoReadResult × VideoDevice :=
  match d.readers.get? i with
  | none => (.eagain, d)
  | some flag =>
    if flag = false then
      if nonblock then (.eagain, d) else (.blocked, d)
    else
      let d1 := { d with readers := d.readers.set i false }
      if d1.videoEnded = true ∧ d1.loopEnabled = false then
        (.endMsg, d1)
      else
        (.timeMsg (d1.positionMs / 1000) ((d1.positionMs % 1000) / 100), d1)

/-- The PAUSE branch of device_write (lines 298-318): a no-op unless
playing; otherwise compute the elapsed milliseconds since the play start,
cancel both timers, enter Paused, record the pause instant, and subtract
the elapsed time from the remaining time, clamping at 0 (the C code tests
elapsed < remaining and otherwise stores 0, which is Nat subtraction). -/
def pauseCmd (now : Nat) (d : VideoDevice) : VideoDevice :=
  if d.state = .playing then
    let elapsed := now - d.playStartTime
    { d with playTimer := none
             tickTimer := none
             state := .paused
             pauseTime := now
             remainingMs :=
               if elapsed < d.remainingMs then d.remainingMs - elapsed else 0 }
  else d

/-- The PLAY branch of device_write (lines 319-345): ignored when no source
is loaded or when already playing; otherwise enter Playing, record the play
start, clear video_ended, arm the end-of-play timer for the stored
remaining time (resetting the position to 0 when the remaining time is the
full duration, i.e. a start from the beginning), and arm the tick timer to
fire immediately. -/
def playCmd (now : Nat) (d : VideoDevice) : VideoDevice :=
  if d.srcLoaded = false then d
  else if d.state = .playing then d
  else
    let d1 := { d with state := .playing, playStartTime := now, videoEnded := false }
    let d2 :=
      if d1.remainingMs < PLAY_DURATION_MS then
        { d1 with playTimer := some (now + d1.remainingMs) }
      else
        { d1 with positionMs := 0, playTimer := some (now + d1.remainingMs) }
    { d2 with tickTimer := some now }

/-- The LOAD branch of device_write (lines 346-369): ignored when no source
is set; otherwise mark the source loaded, reset the remaining time,
position and video_ended, and when currently playing or paused also cancel
both timers and force Stopped. -/
def loadCmd (d : VideoDevice) : VideoDevice :=
  if d.videoSrc ≠ [] then
    let wasActive := d.state = .playing ∨ d.state = .paused
    let d1 := { d with srcLoaded := true
                       remainingMs := PLAY_DURATION_MS
                       positionMs := 0
                       videoEnded := false }
    if wasActive then
      { d1 with playTimer := none, tickTimer := none, state := .stopped }
    else d1
  else d

/-- The SET LOOP= branch of device_write (lines 370-381): case-insensitive
TRUE or literal 1 enables looping, case-insensitive FALSE or literal 0
disables it, anything else is ignored (strcasecmp is modelled by comparing
the uppercased characters). -/
def setLoopCmd (d : VideoDevice) (v : List Char) : VideoDevice :=
  if v.map Char.toUpper = ['T','R','U','E'] ∨ v = ['1'] then
    { d with loopEnabled := true }
  else if v.map Char.toUpper = ['F','A','L','S','E'] ∨ v = ['0'] then
    { d with loopEnabled := false }
  else d

/-- The SET SRC= branch of device_write (lines 382-412): when playing or
paused, cancel both timers and force Stopped; always clear src_loaded and
reset the remaining time, position and video_ended (loop_enabled is
deliberately not touched); then store the new path when its length is
between 1 and MAX_PATH_LENGTH - 1, clear it when empty, and leave it
unchanged when too long. -/
def setSrcCmd (d : VideoDevice) (path : List Char) : VideoDevice :=
  let d1 :=
    if d.state = .playing ∨ d.state = .paused then
      { d with playTimer := none, tickTimer := none, state := .stopped }
    else d
  let d2 := { d1 with srcLoaded := false
                      remainingMs := PLAY_DURATION_MS
                      positionMs := 0
                      videoEnded := false }
  if 0 < path.length ∧ path.length < MAX_PATH_LENGTH then
    { d2 with videoSrc := path }
  else if path.length = 0 then
    { d2 with videoSrc := [] }
  else d2

/-- Decimal digit accumulation underlying kstrtoul with base 10. -/
def digitsToNat (s : List Char) : Nat :=
  s.foldl (fun a c => a * 10 + (c.toNat - '0'.toNat)) 0

/-- kstrtoul with base 10 (an external kernel library helper, not part of
this repository): modelled as accepting exactly the nonempty all-digit
strings.  The kernel helper additionally tolerates a leading plus sign and
a single trailing newline; neither form can arise from the spec's argument
grammar (and newlines are converted to spaces before command parsing), so
they are not modelled.  Overflowing values are rejected by the kernel
helper and here parse to a Nat that the caller's range check rejects, so
the observable outcome (command ignored) agrees. -/
def kstrtoul10 (s : List Char) : Option Nat :=
  if s ≠ [] ∧ s.all Char.isDigit then some (digitsToNat s) else none

/-- strchr for the first dot (line 416): split the argument at the first
dot, or return none when there is no dot. -/
def splitAtDot : List Char → Option (List Char × List Char)
  | [] => none
  | c :: rest =>
    if c = '.' then some ([], rest)
    else
      match splitAtDot rest with
      | some p => some (c :: p.1, p.2)
      | none => none

/-- The millisecond padding of lines 433-439: one fractional digit is
right-padded with two zeros, two digits with one zero, and anything else is
left as is (zero digits yield the empty string, which the numeric parse
then rejects). -/
def padMs (ms : List Char) : List Char :=
  if ms.length = 1 then ms ++ ['0', '0']
  else if ms.length = 2 then ms ++ ['0']
  else ms

/-- Argument parsing of the SET CURRENT_TIME= branch (lines 413-453): with
a dot, the seconds part must fit the 16-byte buffer and the fractional part
must have at most 3 characters; both parts must parse as base-10 numbers
after padding the fraction to milliseconds.  Without a dot, the whole
argument must parse as integer seconds.  Returns the position in
milliseconds, or none when the format is invalid. -/
def parseCurrentTime (timeStr : List Char) : Option Nat :=
  match splitAtDot timeStr with
  | some p =>
    if p.1.length < 16 ∧ p.2.length ≤ 3 then
      match kstrtoul10 p.1, kstrtoul10 (padMs p.2) with
      | some sp, some mp => some (sp * 1000 + mp)
      | _, _ => none
    else none
  | none =>
    match kstrtoul10 timeStr with
    | some sp => some (sp * 1000)
    | none => none

/-- The SET CURRENT_TIME= branch of device_write (lines 413-478): a valid
parse whose value does not exceed the duration sets the position to the
value and recomputes the remaining time as duration minus position; when
currently playing, both timers are cancelled and re-armed from the new
remaining time and the play start is reset to now.  A malformed or
out-of-range argument leaves the device unchanged. -/
def setCurrentTimeCmd (now : Nat) (d : VideoDevice) (arg : List Char) : VideoDevice :=
  match parseCurrentTime arg with
  | some v =>
    if v ≤ PLAY_DURATION_MS then
      let d1 := { d with remainingMs := PLAY_DURATION_MS - v, positionMs := v }
      if d1.state = .playing then
        { d1 with playStartTime := now
                  playTimer := some (now + d1.remainingMs)
                  tickTimer := some (now + 100) }
      else d1
    else d
  | none => d

/-- The command dispatch of device_write (lines 296-482), in source order:
exact matches for PAUSE, PLAY and LOAD, then prefix matches for SET LOOP=,
SET SRC= and SET CURRENT_TIME=; any other line is a no-op for the playback
state. -/
def videoCommand (now : Nat) (d : VideoDevice) (cmd : List Char) : VideoDevice :=
  if cmd = ['P','A','U','S','E'] then pauseCmd now d
  else if cmd = ['P','L','A','Y'] then playCmd now d
  else if cmd = ['L','O','A','D'] then loadCmd d
  else if ['S','E','T',' ','L','O','O','P','='].isPrefixOf cmd then
    setLoopCmd d (cmd.drop 9)
  else if ['S','E','T',' ','S','R','C','='].isPrefixOf cmd then
    setSrcCmd d (cmd.drop 8)
  else if ['S','E','T',' ','C','U','R','R','E','N','T','_','T','I','M','E','='].isPrefixOf cmd then
    setCurrentTimeCmd now d (cmd.drop 17)
  else d

/-- Input processing of device_write (lines 256-288): take the first
VIDEO_MAX_CHARS bytes, turn newline and carriage return into spaces, keep
printable ASCII, drop everything else, then strip trailing spaces. -/
def filterVideoChar (c : Char) : Option Char :=
  if c = '\n' ∨ c = '\r' then some ' '
  else if 32 ≤ c.toNat ∧ c.toNat ≤ 126 then some c
  else none

/-- Trailing-space stripping of lines 285-288. -/
def dropTrailingSpaces (s : List Char) : List Char :=
  (s.reverse.dropWhile fun c => c = ' ').reverse

/-- device_write (lines 232-488) as a whole: process the raw bytes into a
command line, then dispatch it against the playback state. -/
def device_write (now : Nat) (d : VideoDevice) (input : List Char) : VideoDevice :=
  videoCommand now d (dropTrailingSpaces ((input.take VIDEO_MAX_CHARS).filterMap filterVideoChar))

/-- The states a video device can be driven into by any sequence of writes,
timer fires, reader opens, reads and closes, starting from the initialized
device. -/
inductive Reachable : VideoDevice → Prop
  | init : Reachable initDevice
  | write (now : Nat) (input : List Char) {d : VideoDevice} :
      Reachable d → Reachable (device_write now d input)
  | playFire (now : Nat) {d : VideoDevice} :
      Reachable d → Reachable (read_timer_callback now d)
  | tickFire (now : Nat) {d : VideoDevice} :
      Reachable d → Reachable (time_update_callback now d)
  | openReader {d : VideoDevice} :
      Reachable d → Reachable (device_open_reader d)
  | readStep (i : Nat) (nb : Bool) {d : VideoDevice} :
      Reachable d → Reachable (device_read d i nb).2
  | closeReader (i : Nat) {d : VideoDevice} :
      Reachable d → Reachable (device_release_reader d i)

end VideoSim

namespace HubSim

theorem acceptDigits_eq_filter_take (input : List Char) :
    ∀ n, acceptDigits input n = (input.filter isBoolDigit).take n := by
  induction input with
  | nil => intro n; cases n <;> simp [acceptDigits]
  | cons c rest ih =>
    intro n
    cases n with
    | zero => simp [acceptDigits]
    | succ k =>
      by_cases h : isBoolDigit c
      · simp [acceptDigits, h, List.filter_cons, List.take_succ_cons, ih]
      · simp [acceptDigits, h, List.filter_cons, ih]

theorem length_acceptDigits_le (input : List Char) (n : Nat) :
    (acceptDigits input n).length ≤ n := by
  rw [acceptDigits_eq_filter_take]
  simp [List.length_take]

theorem length_channelUpdate (input : List Char) :
    (channelUpdate input).length = NUM_CHANNELS := by
  have h := length_acceptDigits_le input NUM_CHANNELS
  simp [channelUpdate]
  omega

theorem changedFlag_self (l : List Char) : changedFlag l l = false := by
  induction l with
  | nil => rfl
  | cons a l ih => simp [changedFlag] at ih ⊢; exact ih

theorem changedFlag_iff : ∀ (l m : List Char), l.length = m.length →
    (changedFlag l m = true ↔ l ≠ m) := by
  intro l
  induction l with
  | nil =>
    intro m h
    cases m with
    | nil => simp [changedFlag]
    | cons b m => simp at h
  | cons a l ih =>
    intro m h
    cases m with
    | nil => simp at h
    | cons b m =>
      simp only [List.length_cons, Nat.add_right_cancel_iff] at h
      simp only [changedFlag, List.zip_cons_cons, List.any_cons] at *
      rw [Bool.or_eq_true, bne_iff_ne, ih m h]
      constructor
      · rintro (hab | hlm) heq
        · exact hab (by injection heq)
        · exact hlm (by injection heq)
      · intro hne
        by_cases hab : a = b
        · subst hab
          refine Or.inr fun hlm => hne ?_
          rw [hlm]
        · exact Or.inl hab

/-- C5: for every hub write payload, the channel-state update followed by a
snapshot read returns exactly the accepted prefix of boolean digit
characters (up to the channel count, newline and carriage return skipped,
other bytes dropped), and every channel position beyond the accepted digits
is reset to the off character, not left at its previous value: full
replace, not merge. -/
theorem hub_full_replace (s : HubState) (input : List Char) (nb : Bool) :
    ((device_write s input).1.channels =
      (input.filter isBoolDigit).take NUM_CHANNELS ++
        List.replicate
          (NUM_CHANNELS - ((input.filter isBoolDigit).take NUM_CHANNELS).length) '0')
  ∧ (device_read (device_write s input).1.channels true nb).1 =
      ReadResult.data ((device_write s input).1.channels ++ ['\n'])
  ∧ (∀ i, ((input.filter isBoolDigit).take NUM_CHANNELS).length ≤ i →
      i < NUM_CHANNELS → (device_write s input).1.channels[i]? = some '0') := by
  refine ⟨?_, rfl, ?_⟩
  · simp [device_write, channelUpdate, acceptDigits_eq_filter_take]
  · intro i hle hlt
    have hacc : (acceptDigits input NUM_CHANNELS) =
        (input.filter isBoolDigit).take NUM_CHANNELS :=
      acceptDigits_eq_filter_take input NUM_CHANNELS
    simp only [device_write, channelUpdate, hacc]
    have hlen : ((input.filter isBoolDigit).take NUM_CHANNELS).length ≤ NUM_CHANNELS := by
      rw [List.length_take]; exact min_le_left _ _
    rw [List.getElem?_append_right hle, List.getElem?_replicate, if_pos (by omega)]

/-- C5 witness: writing the three-byte payload 101 to a device leaves
channel position 5 at the off character. -/
theorem hub_full_replace_witness :
    (device_write ⟨List.replicate 24 '1', List.replicate 24 '0'⟩
        ('1' :: '0' :: '1' :: [])).1.channels[5]? = some '0' :=
  (hub_full_replace ⟨List.replicate 24 '1', List.replicate 24 '0'⟩
    ('1' :: '0' :: '1' :: []) true).2.2 5 (by decide) (by decide)

/-- C6: a channel-state update reports changed exactly when at least one
channel position of the new state differs from the state immediately
before the write (both for the write path of iohubx24-sim and for the
random refresh of ihubx24-sim), and writing the same payload twice in a
row reports changed = false on the second write. -/
theorem hub_change_detection (s : HubState) (input : List Char)
    (h : s.channels.length = NUM_CHANNELS)
    (curr : List Char) (rnd : List Bool)
    (hc : curr.length = NUM_CHANNELS) (hr : rnd.length = NUM_CHANNELS) :
    ((device_write s input).2 = true ↔ (device_write s input).1.channels ≠ s.channels)
  ∧ (device_write (device_write s input).1 input).2 = false
  ∧ ((update_input_states curr rnd).2 = true ↔ (update_input_states curr rnd).1.1 ≠ curr) := by
  refine ⟨?_, ?_, ?_⟩
  · have hl : (channelUpdate input).length = s.channels.length := by
      rw [length_channelUpdate, h]
    exact changedFlag_iff _ _ hl
  · exact changedFlag_self (channelUpdate input)
  · have hl : (rnd.map fun b => if b then '1' else '0').length = curr.length := by
      rw [List.length_map, hr, hc]
    exact changedFlag_iff _ _ hl

/-- C6 witness: writing 1 to an all-off 24-channel device reports changed,
because the produced state differs from the previous all-off state. -/
theorem hub_change_detection_witness :
    (device_write ⟨List.replicate 24 '0', List.replicate 24 '0'⟩ ['1']).2 = true ↔
      (device_write ⟨List.replicate 24 '0', List.replicate 24 '0'⟩ ['1']).1.channels ≠
        List.replicate 24 '0' :=
  (hub_change_detection ⟨List.replicate 24 '0', List.replicate 24 '0'⟩ ['1']
    (by decide) (List.replicate 24 '0') (List.replicate 24 true)
    (by decide) (by decide)).1

/-- C9: a successful hub read consumes the pending notification: with the
flag set, a read returns the 24 channel characters plus a trailing newline
and clears the flag; with the flag clear, a non-blocking read returns
EAGAIN and a blocking read suspends, rather than returning a stale
duplicate of the same state. -/
theorem hub_read_consumes (channels : List Char) (nb : Bool) :
    device_read channels true nb = (ReadResult.data (channels ++ ['\n']), false)
  ∧ (device_read channels false true).1 = ReadResult.eagain
  ∧ (device_read channels false false).1 = ReadResult.blocked :=
  ⟨rfl, rfl, rfl⟩

end HubSim

/-- C1 counterexample: the claim asserts that every device kind with a read
path initializes the reader's state-changed flag to true at open, so the
first read never returns WouldBlock.  For the video device the opposite
holds: device_open sets data_available = 0, so a freshly opened reader's
first non-blocking read returns EAGAIN instead of the current state. -/
theorem first_read_bias_counterexample :
    (VideoSim.device_open_reader VideoSim.initDevice).readers = [false]
  ∧ (VideoSim.device_read (VideoSim.device_open_reader VideoSim.initDevice) 0 true).1 =
      VideoSim.VideoReadResult.eagain := by
  decide

/-- C1 amended: for the hub device kinds with a read path (ihubx24-sim,
iohubx24-sim, phidgetvintx6) the reader's state-changed flag is
initialized to true at open, so the first read immediately returns the
current state; for the video device the data_available flag is initialized
to false at open, so a fresh reader's first read blocks, or returns
WouldBlock in non-blocking mode, until the first notification. -/
theorem first_read_bias_amended (channels : List Char) (nb : Bool)
    (d : VideoSim.VideoDevice) :
    HubSim.open_reader_flag = true
  ∧ HubSim.device_read channels HubSim.open_reader_flag nb =
      (HubSim.ReadResult.data (channels ++ ['\n']), false)
  ∧ (VideoSim.device_open_reader d).readers.head? = some false
  ∧ (VideoSim.device_read (VideoSim.device_open_reader d) 0 true).1 =
      VideoSim.VideoReadResult.eagain
  ∧ (VideoSim.device_read (VideoSim.device_open_reader d) 0 false).1 =
      VideoSim.VideoReadResult.blocked := by
  refine ⟨rfl, rfl, rfl, ?_, ?_⟩ <;>
    simp [VideoSim.device_read, VideoSim.device_open_reader]

namespace VideoSim

/-- C2: for a playing video device, when the end-of-play timer fires with
loop enabled the position is reset to 0, the remaining time to the full
20000 ms, both timers are re-armed, the state stays Playing and every
registered reader is flagged; with loop disabled the state becomes
Stopped, video_ended is set, the position is set to the full 20000 ms
duration, the position-tick timer is cancelled and every registered reader
is flagged. -/
theorem end_of_play_timer_fire (now : Nat) (d : VideoDevice)
    (h : d.state = VideoState.playing) :
    (d.loopEnabled = true →
      (read_timer_callback now d).positionMs = 0
    ∧ (read_timer_callback now d).remainingMs = PLAY_DURATION_MS
    ∧ (read_timer_callback now d).playTimer = some (now + PLAY_DURATION_MS)
    ∧ (read_timer_callback now d).tickTimer = some (now + 100)
    ∧ (read_timer_callback now d).state = VideoState.playing
    ∧ (read_timer_callback now d).readers = d.readers.map (fun _ => true))
  ∧ (d.loopEnabled = false →
      (read_timer_callback now d).state = VideoState.stopped
    ∧ (read_timer_callback now d).videoEnded = true
    ∧ (read_timer_callback now d).positionMs = PLAY_DURATION_MS
    ∧ (read_timer_callback now d).remainingMs = PLAY_DURATION_MS
    ∧ (read_timer_callback now d).playTimer = none
    ∧ (read_timer_callback now d).tickTimer = none
    ∧ (read_timer_callback now d).readers = d.readers.map (fun _ => true)) := by
  constructor <;> intro hl <;> simp [read_timer_callback, h, hl]

/-- C2 witness: the non-loop branch at a concrete playing device. -/
theorem end_of_play_timer_fire_witness :
    (read_timer_callback 5
      { initDevice with state := VideoState.playing, readers := [false] }).state =
        VideoState.stopped :=
  ((end_of_play_timer_fire 5
    { initDevice with state := VideoState.playing, readers := [false] } rfl).2 rfl).1

/-- C3: PAUSE is a no-op unless playing; when playing it cancels both
timers, enters Paused and sets the remaining time to the old remaining
time minus the elapsed time since play start, clamped at zero (Nat
subtraction); and a PLAY issued after a pause 5000 ms into a full 20000 ms
playback resumes with the stored 15000 ms, arming the end-of-play timer
for 15000 ms and leaving the position unchanged, not a full reset. -/
theorem pause_resume (now t2 : Nat) (d : VideoDevice) :
    (d.state ≠ VideoState.playing → pauseCmd now d = d)
  ∧ (d.state = VideoState.playing →
      (pauseCmd now d).state = VideoState.paused
    ∧ (pauseCmd now d).playTimer = none
    ∧ (pauseCmd now d).tickTimer = none
    ∧ (pauseCmd now d).remainingMs = d.remainingMs - (now - d.playStartTime))
  ∧ (d.state = VideoState.playing → d.srcLoaded = true →
      d.remainingMs = PLAY_DURATION_MS →
      (pauseCmd (d.playStartTime + 5000) d).remainingMs = 15000
    ∧ (playCmd t2 (pauseCmd (d.playStartTime + 5000) d)).state = VideoState.playing
    ∧ (playCmd t2 (pauseCmd (d.playStartTime + 5000) d)).remainingMs = 15000
    ∧ (playCmd t2 (pauseCmd (d.playStartTime + 5000) d)).playTimer = some (t2 + 15000)
    ∧ (playCmd t2 (pauseCmd (d.playStartTime + 5000) d)).positionMs = d.positionMs) := by
  refine ⟨?_, ?_, ?_⟩
  · intro h; simp [pauseCmd, h]
  · intro h
    refine ⟨by simp [pauseCmd, h], by simp [pauseCmd, h], by simp [pauseCmd, h], ?_⟩
    simp only [pauseCmd, h, if_true, if_pos rfl]
    split <;> omega
  · intro h hs hr
    have hp : pauseCmd (d.playStartTime + 5000) d =
        { d with playTimer := none, tickTimer := none, state := VideoState.paused,
                 pauseTime := d.playStartTime + 5000, remainingMs := 15000 } := by
      simp [pauseCmd, h, hr, PLAY_DURATION_MS]
    rw [hp]
    simp [playCmd, hs, PLAY_DURATION_MS]

/-- C3 witness: a device playing a loaded source from time 100 paused at
time 5100 keeps 15000 ms remaining, and a later PLAY resumes playing. -/
theorem pause_resume_witness :
    (pauseCmd (100 + 5000)
      { initDevice with state := VideoState.playing, srcLoaded := true,
                        playStartTime := 100 }).remainingMs = 15000
  ∧ (playCmd 9000 (pauseCmd (100 + 5000)
      { initDevice with state := VideoState.playing, srcLoaded := true,
                        playStartTime := 100 })).remainingMs = 15000 :=
  ⟨((pause_resume (100 + 5000) 9000
      { initDevice with state := VideoState.playing, srcLoaded := true,
                        playStartTime := 100 }).2.2 rfl rfl rfl).1,
   ((pause_resume (100 + 5000) 9000
      { initDevice with state := VideoState.playing, srcLoaded := true,
                        playStartTime := 100 }).2.2 rfl rfl rfl).2.2.1⟩

/-- C8: every SET SRC= command, including one repeating the current
source, forces the state to Stopped, clears the loaded flag, resets
position, remaining time and the ended flag, leaves the loop flag
unchanged, and cancels both timers when the device was Playing or
Paused. -/
theorem set_src_forces_stopped (d : VideoDevice) (path : List Char) :
    (setSrcCmd d path).state = VideoState.stopped
  ∧ (setSrcCmd d path).srcLoaded = false
  ∧ (setSrcCmd d path).positionMs = 0
  ∧ (setSrcCmd d path).remainingMs = PLAY_DURATION_MS
  ∧ (setSrcCmd d path).videoEnded = false
  ∧ (setSrcCmd d path).loopEnabled = d.loopEnabled
  ∧ ((d.state = VideoState.playing ∨ d.state = VideoState.paused) →
      (setSrcCmd d path).playTimer = none ∧ (setSrcCmd d path).tickTimer = none) := by
  unfold setSrcCmd
  cases hs : d.state <;> split_ifs <;> simp_all

/-- C8 witness: SET SRC on a concrete playing device with an armed timer
cancels the end-of-play timer. -/
theorem set_src_forces_stopped_witness :
    (setSrcCmd { initDevice with state := VideoState.playing, playTimer := some 3 }
      ['a']).playTimer = none :=
  ((set_src_forces_stopped
      { initDevice with state := VideoState.playing, playTimer := some 3 }
      ['a']).2.2.2.2.2.2 (Or.inl rfl)).1

/-- C10: when a non-looping playback ends naturally, the end-of-play
handler leaves the source loaded and resets the remaining time to the
full duration, so a subsequent PLAY restarts from the beginning: the
position is reset to 0 and the end-of-play timer is armed for the full
20000 ms. -/
theorem play_after_natural_end (now t2 : Nat) (d : VideoDevice)
    (hp : d.state = VideoState.playing) (hl : d.loopEnabled = false)
    (hs : d.srcLoaded = true) :
    (read_timer_callback now d).state = VideoState.stopped
  ∧ (read_timer_callback now d).remainingMs = PLAY_DURATION_MS
  ∧ (read_timer_callback now d).srcLoaded = true
  ∧ (read_timer_callback now d).videoEnded = true
  ∧ (playCmd t2 (read_timer_callback now d)).state = VideoState.playing
  ∧ (playCmd t2 (read_timer_callback now d)).positionMs = 0
  ∧ (playCmd t2 (read_timer_callback now d)).videoEnded = false
  ∧ (playCmd t2 (read_timer_callback now d)).playTimer =
      some (t2 + PLAY_DURATION_MS) := by
  have he : read_timer_callback now d =
      { d with playTimer := none, state := VideoState.stopped,
               remainingMs := PLAY_DURATION_MS, positionMs := PLAY_DURATION_MS,
               videoEnded := true, tickTimer := none,
               readers := d.readers.map (fun _ => true) } := by
    simp [read_timer_callback, hp, hl]
  rw [he]
  simp [playCmd, hs]

/-- C10 witness: at a concrete playing non-looping device, firing the end
timer and then issuing PLAY restarts from position 0. -/
theorem play_after_natural_end_witness :
    (playCmd 9 (read_timer_callback 3
      { initDevice with state := VideoState.playing, srcLoaded := true })).positionMs = 0 :=
  (play_after_natural_end 3 9
    { initDevice with state := VideoState.playing, srcLoaded := true }
    rfl rfl rfl).2.2.2.2.2.1

end VideoSim

namespace VideoSim

theorem splitAtDot_of_digits (s : List Char) (h : s.all Char.isDigit = true) :
    splitAtDot s = none := by
  induction s with
  | nil => rfl
  | cons c rest ih =>
    simp only [List.all_cons, Bool.and_eq_true] at h
    have hc : ¬ c = '.' := fun he => by subst he; exact absurd h.1 (by decide)
    simp [splitAtDot, hc, ih h.2]

theorem splitAtDot_append_digits (s t : List Char) (h : s.all Char.isDigit = true) :
    splitAtDot (s ++ '.' :: t) = some (s, t) := by
  induction s with
  | nil => simp [splitAtDot]
  | cons c rest ih =>
    simp only [List.all_cons, Bool.and_eq_true] at h
    have hc : ¬ c = '.' := fun he => by subst he; exact absurd h.1 (by decide)
    simp [splitAtDot, hc, ih h.2]

theorem kstrtoul10_digits (s : List Char) (h1 : s ≠ [])
    (h2 : s.all Char.isDigit = true) :
    kstrtoul10 s = some (digitsToNat s) := by
  simp [kstrtoul10, h1, h2]

theorem padMs_digits (f : List Char) (h : f.all Char.isDigit = true) :
    (padMs f).all Char.isDigit = true := by
  unfold padMs
  split_ifs <;> simp [List.all_append, h]

theorem padMs_ne_nil (f : List Char) (h : f ≠ []) : padMs f ≠ [] := by
  unfold padMs
  split_ifs <;> simp [h]

theorem parseCurrentTime_dot (secs frac : List Char)
    (h1 : secs ≠ []) (h2 : secs.all Char.isDigit = true) (h3 : secs.length < 16)
    (h4 : frac ≠ []) (h5 : frac.all Char.isDigit = true) (h6 : frac.length ≤ 3) :
    parseCurrentTime (secs ++ '.' :: frac) =
      some (digitsToNat secs * 1000 + digitsToNat (padMs frac)) := by
  simp [parseCurrentTime, splitAtDot_append_digits secs frac h2, h3, h6,
        kstrtoul10_digits secs h1 h2,
        kstrtoul10_digits (padMs frac) (padMs_ne_nil frac h4) (padMs_digits frac h5)]

theorem parseCurrentTime_int (secs : List Char)
    (h1 : secs ≠ []) (h2 : secs.all Char.isDigit = true) :
    parseCurrentTime secs = some (digitsToNat secs * 1000) := by
  simp [parseCurrentTime, splitAtDot_of_digits secs h2, kstrtoul10_digits secs h1 h2]

theorem setCurrentTimeCmd_accepted (now : Nat) (d : VideoDevice) (arg : List Char)
    (v : Nat) (hp : parseCurrentTime arg = some v) (hle : v ≤ PLAY_DURATION_MS) :
    (setCurrentTimeCmd now d arg).positionMs = v ∧
    (setCurrentTimeCmd now d arg).remainingMs = PLAY_DURATION_MS - v := by
  unfold setCurrentTimeCmd
  rw [hp]
  simp only [hle, if_true]
  split <;> simp

theorem setCurrentTimeCmd_rejected_malformed (now : Nat) (d : VideoDevice)
    (arg : List Char) (hp : parseCurrentTime arg = none) :
    setCurrentTimeCmd now d arg = d := by
  unfold setCurrentTimeCmd
  rw [hp]

theorem setCurrentTimeCmd_rejected_range (now : Nat) (d : VideoDevice)
    (arg : List Char) (v : Nat) (hp : parseCurrentTime arg = some v)
    (hgt : PLAY_DURATION_MS < v) :
    setCurrentTimeCmd now d arg = d := by
  unfold setCurrentTimeCmd
  rw [hp]
  exact if_neg (by omega)

/-- C4: SET CURRENT_TIME accepts an integer number of seconds, or
seconds.fraction with 1 to 3 fractional digits right-padded to
milliseconds, provided the value does not exceed the 20000 ms duration;
an accepted value becomes the position, with the remaining time recomputed
as 20000 ms minus the value (so 12.5 yields position 12500 ms and
remaining 7500 ms); a malformed argument, or one exceeding the duration
such as 21, is rejected with no state change. -/
theorem set_current_time_spec (now : Nat) (d : VideoDevice) :
    (∀ secs frac : List Char,
      secs ≠ [] → secs.all Char.isDigit = true → secs.length < 16 →
      frac ≠ [] → frac.all Char.isDigit = true → frac.length ≤ 3 →
      digitsToNat secs * 1000 + digitsToNat (padMs frac) ≤ PLAY_DURATION_MS →
      (setCurrentTimeCmd now d (secs ++ '.' :: frac)).positionMs =
          digitsToNat secs * 1000 + digitsToNat (padMs frac)
    ∧ (setCurrentTimeCmd now d (secs ++ '.' :: frac)).remainingMs =
          PLAY_DURATION_MS - (digitsToNat secs * 1000 + digitsToNat (padMs frac)))
  ∧ (∀ secs : List Char, secs ≠ [] → secs.all Char.isDigit = true →
      digitsToNat secs * 1000 ≤ PLAY_DURATION_MS →
      (setCurrentTimeCmd now d secs).positionMs = digitsToNat secs * 1000
    ∧ (setCurrentTimeCmd now d secs).remainingMs =
          PLAY_DURATION_MS - digitsToNat secs * 1000)
  ∧ (∀ arg : List Char, parseCurrentTime arg = none →
      setCurrentTimeCmd now d arg = d)
  ∧ (∀ arg : List Char, ∀ v : Nat, parseCurrentTime arg = some v →
      PLAY_DURATION_MS < v → setCurrentTimeCmd now d arg = d)
  ∧ ((setCurrentTimeCmd now d ('1' :: '2' :: '.' :: '5' :: [])).positionMs = 12500
    ∧ (setCurrentTimeCmd now d ('1' :: '2' :: '.' :: '5' :: [])).remainingMs = 7500)
  ∧ setCurrentTimeCmd now d ('2' :: '1' :: []) = d := by
  refine ⟨?_, ?_, ?_, ?_, ?_, ?_⟩
  · intro secs frac h1 h2 h3 h4 h5 h6 hle
    exact setCurrentTimeCmd_accepted now d _ _
      (parseCurrentTime_dot secs frac h1 h2 h3 h4 h5 h6) hle
  · intro secs h1 h2 hle
    exact setCurrentTimeCmd_accepted now d _ _ (parseCurrentTime_int secs h1 h2) hle
  · intro arg hp
    exact setCurrentTimeCmd_rejected_malformed now d arg hp
  · intro arg v hp hgt
    exact setCurrentTimeCmd_rejected_range now d arg v hp hgt
  · exact setCurrentTimeCmd_accepted now d _ 12500 (by decide) (by decide)
  · exact setCurrentTimeCmd_rejected_range now d _ 21000 (by decide) (by decide)

/-- C4 witness: the accepted dot form at the concrete argument 12.5 sets
the position to 12500 ms. -/
theorem set_current_time_spec_witness :
    (setCurrentTimeCmd 0 initDevice
      (('1' :: '2' :: []) ++ '.' :: ('5' :: []))).positionMs =
        digitsToNat ('1' :: '2' :: []) * 1000 + digitsToNat (padMs ('5' :: [])) :=
  ((set_current_time_spec 0 initDevice).1 ('1' :: '2' :: []) ('5' :: [])
    (by decide) (by decide) (by decide) (by decide) (by decide) (by decide)
    (by decide)).1

end VideoSim

namespace VideoSim

theorem positionMs_pauseCmd (now : Nat) (d : VideoDevice) :
    (pauseCmd now d).positionMs = d.positionMs := by
  unfold pauseCmd
  split <;> rfl

theorem positionMs_setLoopCmd (d : VideoDevice) (v : List Char) :
    (setLoopCmd d v).positionMs = d.positionMs := by
  unfold setLoopCmd
  split_ifs <;> rfl

theorem positionMs_playCmd (now : Nat) (d : VideoDevice) :
    (playCmd now d).positionMs = d.positionMs ∨ (playCmd now d).positionMs = 0 := by
  simp only [playCmd]
  split_ifs <;> simp

theorem positionMs_loadCmd (d : VideoDevice) :
    (loadCmd d).positionMs = d.positionMs ∨ (loadCmd d).positionMs = 0 := by
  simp only [loadCmd]
  split_ifs <;> simp

theorem positionMs_setSrcCmd (d : VideoDevice) (path : List Char) :
    (setSrcCmd d path).positionMs = 0 := by
  simp only [setSrcCmd]
  split_ifs <;> rfl

theorem positionMs_setCurrentTimeCmd (now : Nat) (d : VideoDevice) (arg : List Char)
    (h : d.positionMs ≤ PLAY_DURATION_MS) :
    (setCurrentTimeCmd now d arg).positionMs ≤ PLAY_DURATION_MS := by
  unfold setCurrentTimeCmd
  cases hp : parseCurrentTime arg with
  | none => exact h
  | some v =>
    by_cases hv : v ≤ PLAY_DURATION_MS
    · simp only [hv, if_true]
      split <;> simpa using hv
    · simp only [hv, if_false]
      exact h

theorem positionMs_videoCommand (now : Nat) (d : VideoDevice) (cmd : List Char)
    (h : d.positionMs ≤ PLAY_DURATION_MS) :
    (videoCommand now d cmd).positionMs ≤ PLAY_DURATION_MS := by
  unfold videoCommand
  split_ifs
  · rw [positionMs_pauseCmd]; exact h
  · rcases positionMs_playCmd now d with hp | hp
    · rw [hp]; exact h
    · rw [hp]; exact Nat.zero_le _
  · rcases positionMs_loadCmd d with hp | hp
    · rw [hp]; exact h
    · rw [hp]; exact Nat.zero_le _
  · rw [positionMs_setLoopCmd]; exact h
  · rw [positionMs_setSrcCmd]; exact Nat.zero_le _
  · exact positionMs_setCurrentTimeCmd now d _ h
  · exact h

theorem positionMs_device_write (now : Nat) (d : VideoDevice) (input : List Char)
    (h : d.positionMs ≤ PLAY_DURATION_MS) :
    (device_write now d input).positionMs ≤ PLAY_DURATION_MS := by
  unfold device_write
  exact positionMs_videoCommand now d _ h

theorem positionMs_read_timer_callback (now : Nat) (d : VideoDevice)
    (h : d.positionMs ≤ PLAY_DURATION_MS) :
    (read_timer_callback now d).positionMs ≤ PLAY_DURATION_MS := by
  simp only [read_timer_callback]
  split_ifs <;> simp [h]

theorem positionMs_time_update_callback (now : Nat) (d : VideoDevice)
    (h : d.positionMs ≤ PLAY_DURATION_MS) :
    (time_update_callback now d).positionMs ≤ PLAY_DURATION_MS := by
  simp only [time_update_callback]
  split_ifs <;> (simp [h]; try omega)

theorem positionMs_device_open_reader (d : VideoDevice)
    (h : d.positionMs ≤ PLAY_DURATION_MS) :
    (device_open_reader d).positionMs ≤ PLAY_DURATION_MS := by
  unfold device_open_reader
  by_cases hs : d.state = VideoState.stopped <;> simp [hs, h]

theorem positionMs_device_read (d : VideoDevice) (i : Nat) (nb : Bool) :
    (device_read d i nb).2.positionMs = d.positionMs := by
  simp only [device_read]
  cases hg : d.readers.get? i with
  | none => rfl
  | some flag =>
    cases flag
    · cases nb <;> simp
    · simp only [Bool.true_eq_false, if_false]
      split <;> simp

/-- C7: in every reachable state of a video device (after any sequence of
writes, timer fires, reader opens, reads and closes), the current playback
position never exceeds the total duration of 20000 ms. -/
theorem video_position_invariant (d : VideoDevice) (h : Reachable d) :
    d.positionMs ≤ PLAY_DURATION_MS := by
  induction h with
  | init => exact Nat.zero_le _
  | write now input _ ih => exact positionMs_device_write now _ input ih
  | playFire now _ ih => exact positionMs_read_timer_callback now _ ih
  | tickFire now _ ih => exact positionMs_time_update_callback now _ ih
  | openReader _ ih => exact positionMs_device_open_reader _ ih
  | readStep i nb _ ih => rw [positionMs_device_read]; exact ih
  | closeReader i _ ih => exact ih

/-- C7 witness: the position bound at the concrete reachable state
produced by one PLAY write on a fresh device. -/
theorem video_position_invariant_witness :
    (device_write 0 initDevice ('P' :: 'L' :: 'A' :: 'Y' :: [])).positionMs ≤
      PLAY_DURATION_MS :=
  video_position_invariant _
    (Reachable.write 0 ('P' :: 'L' :: 'A' :: 'Y' :: []) Reachable.init)

end VideoSim
